import Mathlib

/-!
Verification of the persistence layer of the Financial Portfolio tracker
(`Backend.py`) and the relevant fragments of its presentation layer
(`Frontend.py`), as a shallow embedding.

Decimal quantities are modelled as `Rat`, dates as `String`, the relational
store as lists of rows with auto-incremented integer keys, and the
per-asset random price perturbation (`random.random()`) as an explicit
stream `rand : Nat → Rat` of draws in `[0, 1)`.
-/

/-- A row of the `Users` table. -/
structure UserRow where
  user_id : Nat
  name : String
  email : String
deriving Repr, DecidableEq

/-- A row of the `Accounts` table. -/
structure AccountRow where
  account_id : Nat
  user_id : Nat
  account_type : String
  provider_name : String
deriving Repr, DecidableEq

/-- A row of the `Assets` table. -/
structure AssetRow where
  asset_id : Nat
  account_id : Nat
  ticker_symbol : String
  asset_class : String
  purchase_date : String
  shares : Rat
  cost_basis : Rat
deriving Repr, DecidableEq

/-- A row of the `Transactions` table. -/
structure TransactionRow where
  txn_id : Nat
  asset_id : Nat
  transaction_type : String
  transaction_date : String
  shares : Rat
  amount : Rat
deriving Repr, DecidableEq

/-- The relational store: the four tables plus the next value of each
serial primary-key sequence. -/
structure DB where
  users : List UserRow
  accounts : List AccountRow
  assets : List AssetRow
  transactions : List TransactionRow
  nextUserId : Nat
  nextAccountId : Nat
  nextAssetId : Nat
  nextTxnId : Nat
deriving Repr, DecidableEq

/-- The empty database (fresh schema, serial sequences starting at 1). -/
def DB.empty : DB :=
  { users := [], accounts := [], assets := [], transactions := []
    nextUserId := 1, nextAccountId := 1, nextAssetId := 1, nextTxnId := 1 }

/-- A Python value holding a row identifier as `create_user_and_account`
manipulates it: either a bare integer (the `fetchone()[0]` of a fresh
`INSERT ... RETURNING`) or a one-element row tuple `(id,)` (a `fetchone()`
of a `SELECT` that was never unpacked). -/
inductive PyVal where
  | vint (n : Nat)
  | vtup (n : Nat)
deriving Repr, DecidableEq

/-- The integer a `PyVal` denotes when it reaches the SQL layer: psycopg2
adapts the one-element tuple `(n,)` to the parenthesized scalar `(n)`. -/
def PyVal.underlying : PyVal → Nat
  | .vint n => n
  | .vtup n => n

/-- The second half of `create_user_and_account` from `Backend.py`: look up
the account of `user_id` with the given provider (`fetchone`, left as a row
tuple when found), insert when absent (`RETURNING account_id`, unpacked
with `[0]`). -/
def accountPart (db : DB) (user_id : PyVal) (account_type provider : String) :
    (Option PyVal × Option PyVal) × DB :=
  match db.accounts.find? (fun a => a.user_id = user_id.underlying ∧ a.provider_name = provider) with
  | some a =>
      ((some user_id, some (PyVal.vtup a.account_id)), db)
  | none =>
      let newA : AccountRow :=
        { account_id := db.nextAccountId, user_id := user_id.underlying
          account_type := account_type, provider_name := provider }
      let db1 : DB := { db with accounts := db.accounts ++ [newA], nextAccountId := db.nextAccountId + 1 }
      ((some user_id, some (PyVal.vint newA.account_id)), db1)

/-- Embedding of `create_user_and_account` from `Backend.py`: look up the user by email
(`fetchone`, left as a row tuple when found), insert when absent
(`RETURNING user_id`, unpacked with `[0]`); then the same for the account
keyed by `(user_id, provider_name)`.  Returns `(user_id, account_id)` as
the Python values the source returns, together with the resulting store. -/
def create_user_and_account (db : DB) (user_name user_email account_type provider : String) :
    (Option PyVal × Option PyVal) × DB :=
  match db.users.find? (fun u => u.email = user_email) with
  | some u =>
      accountPart db (PyVal.vtup u.user_id) account_type provider
  | none =>
      let newU : UserRow := { user_id := db.nextUserId, name := user_name, email := user_email }
      let db1 : DB := { db with users := db.users ++ [newU], nextUserId := db.nextUserId + 1 }
      accountPart db1 (PyVal.vint newU.user_id) account_type provider

/-- Embedding of `create_asset_and_transaction` from `Backend.py`.  `assetErr` / `txnErr`
model whether the corresponding `INSERT` raises a `psycopg2.Error` (and its
message): the single `conn.commit()` sits after both inserts, so any raise
reaches the `except` branch, which rolls the whole unit of work back and
returns the formatted error string.  The `user_id` parameter is accepted
exactly as in the source. -/
def create_asset_and_transaction (db : DB) (user_id account_id : Nat)
    (ticker asset_class purchase_date : String) (shares cost_basis : Rat)
    (assetErr txnErr : Option String) : String × DB :=
  match assetErr with
  | some e => ("Error creating asset: " ++ e, db)
  | none =>
    let asset_id := db.nextAssetId
    let newAsset : AssetRow :=
      { asset_id := asset_id, account_id := account_id, ticker_symbol := ticker
        asset_class := asset_class, purchase_date := purchase_date
        shares := shares, cost_basis := cost_basis }
    let pending : DB := { db with assets := db.assets ++ [newAsset], nextAssetId := asset_id + 1 }
    match txnErr with
    | some e => ("Error creating asset: " ++ e, db)
    | none =>
      let total_amount := shares * cost_basis
      let newTxn : TransactionRow :=
        { txn_id := pending.nextTxnId, asset_id := asset_id, transaction_type := "BUY"
          transaction_date := purchase_date, shares := shares, amount := total_amount }
      let pending2 : DB :=
        { pending with transactions := pending.transactions ++ [newTxn]
                       nextTxnId := pending.nextTxnId + 1 }
      ("Asset and transaction created successfully.", pending2)

/-- The simulated market price of `Backend.py`:
`cost_basis * Decimal(1 + (random.random() - 0.5) * 0.2)`, with `r` the
draw of `random.random()` (uniform in `[0, 1)`). -/
def simPrice (cost_basis r : Rat) : Rat :=
  cost_basis * (1 + (r - 1/2) * (2/10))

/-- One enriched record of `read_portfolio`'s result list.  The source
renders `cost_basis`, `current_price`, `current_value` and `gain_loss`
with an `f"{..:.2f}"` format for display; the record keeps the `Decimal`
values the formatting is applied to. -/
structure AssetView where
  asset_id : Nat
  ticker : String
  asset_class : String
  shares : Rat
  cost_basis : Rat
  purchase_date : String
  current_price : Rat
  current_value : Rat
  gain_loss : Rat
deriving Repr, DecidableEq

/-- Embedding of `read_portfolio` from `Backend.py`: select the account's assets, then
enrich each with a simulated current price (one fresh `random.random()`
draw per row, modelled by `rand i` for the i-th selected row), the current
value and the gain/loss. -/
def read_portfolio (db : DB) (account_id : Nat) (rand : Nat → Rat) : List AssetView :=
  let assets := db.assets.filter (fun a => a.account_id = account_id)
  assets.enum.map (fun p =>
    let a := p.2
    let current_price := simPrice a.cost_basis (rand p.1)
    let current_value := a.shares * current_price
    let gain_loss := current_value - a.shares * a.cost_basis
    { asset_id := a.asset_id, ticker := a.ticker_symbol, asset_class := a.asset_class
      shares := a.shares, cost_basis := a.cost_basis, purchase_date := a.purchase_date
      current_price := current_price, current_value := current_value, gain_loss := gain_loss })

/-- The `updates` list built by `update_asset`: one SQL assignment fragment
per supplied field, in source order. -/
def updateClauses (new_shares new_cost_basis : Option Rat) : List String :=
  (if new_shares.isSome then ["shares = %s"] else []) ++
  (if new_cost_basis.isSome then ["cost_basis = %s"] else [])

/-- The SQL text `update_asset` sends to the store:
`"UPDATE Assets SET " + ", ".join(updates) + " WHERE asset_id = %s"`. -/
def updateQuery (new_shares new_cost_basis : Option Rat) : String :=
  "UPDATE Assets SET " ++ String.intercalate ", " (updateClauses new_shares new_cost_basis)
    ++ " WHERE asset_id = %s"

/-- Embedding of `update_asset` from `Backend.py`.  When at least one field is supplied
the update statement assigns exactly the supplied fields on every row
matching `asset_id` and the function commits and reports success; when
neither is supplied the constructed statement has an empty `SET` clause,
the store rejects it with a syntax error, and the `except` branch rolls
back and returns the formatted error string. -/
def update_asset (db : DB) (asset_id : Nat) (new_shares new_cost_basis : Option Rat) :
    String × DB :=
  if (updateClauses new_shares new_cost_basis).isEmpty then
    ("Error updating asset: syntax error at or near \"WHERE\"", db)
  else
    ("Asset " ++ toString asset_id ++ " updated successfully.",
     { db with assets := db.assets.map (fun a =>
         if a.asset_id = asset_id then
           { a with shares := new_shares.getD a.shares
                    cost_basis := new_cost_basis.getD a.cost_basis }
         else a) })

/-- Modelled from the spec: the `ON DELETE CASCADE` constraint of the
`Transactions` table.  The schema file declaring it is not part of the
sources; `Backend.py`'s `delete_asset` relies on it ("The ON DELETE CASCADE
constraint in the Transactions table will handle this automatically") and
§3/§6 of the spec state that deleting an Asset cascades to its
Transactions, enforced by the storage engine. -/
def cascadeDeleteTransactions (txns : List TransactionRow) (asset_id : Nat) :
    List TransactionRow :=
  txns.filter (fun t => ¬ t.asset_id = asset_id)

/-- Embedding of `delete_asset` from `Backend.py`: one `DELETE FROM Assets WHERE
asset_id = %s` (deleting zero rows when no row matches raises no error),
the cascade removing the asset's transactions, commit, and the success
message — returned unconditionally, matched or not. -/
def delete_asset (db : DB) (asset_id : Nat) : String × DB :=
  ("Asset " ++ toString asset_id ++ " deleted successfully.",
   { db with assets := db.assets.filter (fun a => ¬ a.asset_id = asset_id)
             transactions := cascadeDeleteTransactions db.transactions asset_id })

/-- The record `get_insights` returns; `asset_allocation` is the Python
dict keyed by asset class, modelled as an association list in insertion
order. -/
structure Insights where
  total_value : Rat
  total_gain_loss : Rat
  asset_allocation : List (String × Rat)
deriving Repr, DecidableEq

/-- The dict update of `get_insights`: `if cls not in d: d[cls] = 0;
d[cls] += v`. -/
def allocAdd : List (String × Rat) → String → Rat → List (String × Rat)
  | [], cls, v => [(cls, v)]
  | (c, w) :: rest, cls, v =>
      if c = cls then (c, w + v) :: rest else (c, w) :: allocAdd rest cls v

/-- The loop body of `get_insights`, folded over the account's assets with
the accumulator `(total_value, total_cost_basis, asset_allocation)`. -/
def insightsStep (rand : Nat → Rat) (acc : Rat × Rat × List (String × Rat))
    (p : Nat × AssetRow) : Rat × Rat × List (String × Rat) :=
  let a := p.2
  let current_price := simPrice a.cost_basis (rand p.1)
  let current_value := a.shares * current_price
  (acc.1 + current_value, acc.2.1 + a.shares * a.cost_basis,
   allocAdd acc.2.2 a.asset_class current_value)

/-- Embedding of `get_insights` from `Backend.py`: a single pass over the account's
assets accumulating total current value, total cost basis, and the
per-class value map (same per-row `random.random()` draw model as
`read_portfolio`); returns total value, total gain/loss and the
allocation. -/
def get_insights (db : DB) (account_id : Nat) (rand : Nat → Rat) : Insights :=
  let assets := db.assets.filter (fun a => a.account_id = account_id)
  let r := assets.enum.foldl (insightsStep rand) (0, 0, [])
  { total_value := r.1, total_gain_loss := r.1 - r.2.1, asset_allocation := r.2.2 }

/-- The Total Gain/Loss delta of `Frontend.py` line 38:
`total_gain_loss/total_value * 100 if total_value > 0 else 0` — the
division is evaluated only under the guard. -/
def deltaPercent (total_gain_loss total_value : Rat) : Rat :=
  if 0 < total_value then total_gain_loss / total_value * 100 else 0

/-! ## Theorems -/

/-- C10: the `user_id` parameter of `create_asset_and_transaction` has no
effect — two calls agreeing on every other argument, the store state and
the failure behaviour of the two inserts return the same message and the
same resulting store, whatever their `user_id` arguments. -/
theorem create_asset_and_transaction_ignores_user_id (db : DB) (u1 u2 a : Nat)
    (t cls d : String) (s c : Rat) (ae te : Option String) :
    create_asset_and_transaction db u1 a t cls d s c ae te
      = create_asset_and_transaction db u2 a t cls d s c ae te := rfl

/-- C4: a successful `create_asset_and_transaction` appends exactly one
Asset row carrying the given `cost_basis` and exactly one Transaction row
of type `BUY` with `amount = shares * cost_basis`, touching no other
table; in particular shares = 10 and cost_basis = 150 give amount = 1500. -/
theorem create_asset_and_transaction_success (db : DB) (u a : Nat)
    (t cls d : String) (s c : Rat) :
    (create_asset_and_transaction db u a t cls d s c none none).1
        = "Asset and transaction created successfully." ∧
    (create_asset_and_transaction db u a t cls d s c none none).2.assets
        = db.assets ++ [{ asset_id := db.nextAssetId, account_id := a, ticker_symbol := t
                          asset_class := cls, purchase_date := d, shares := s, cost_basis := c }] ∧
    (create_asset_and_transaction db u a t cls d s c none none).2.transactions
        = db.transactions ++ [{ txn_id := db.nextTxnId, asset_id := db.nextAssetId
                                transaction_type := "BUY", transaction_date := d
                                shares := s, amount := s * c }] ∧
    (create_asset_and_transaction db u a t cls d s c none none).2.users = db.users ∧
    (create_asset_and_transaction db u a t cls d s c none none).2.accounts = db.accounts ∧
    ((create_asset_and_transaction DB.empty 1 1 "AAPL" "Equity" "2024-01-01" 10 150
        none none).2.transactions.map TransactionRow.amount = [1500]) :=
  ⟨rfl, rfl, rfl, rfl, rfl, by with_unfolding_all rfl⟩

/-- C3: `create_asset_and_transaction` is atomic — when the Transaction
insert raises, the already-executed Asset insert is rolled back (the
resulting store equals the initial one) and the function returns the
formatted human-readable error string; likewise when the Asset insert
itself raises. -/
theorem create_asset_and_transaction_atomic (db : DB) (u a : Nat)
    (t cls d : String) (s c : Rat) (e : String) (o : Option String) :
    create_asset_and_transaction db u a t cls d s c none (some e)
        = ("Error creating asset: " ++ e, db) ∧
    create_asset_and_transaction db u a t cls d s c (some e) o
        = ("Error creating asset: " ++ e, db) :=
  ⟨rfl, rfl⟩

/-- C2: with neither field supplied, `update_asset` builds a statement with
an empty `SET` clause — `UPDATE Assets SET  WHERE asset_id = %s` — and
executes it against the store, which rejects it with a syntax error that
is then surfaced as an error string: the claim's requirement that no
malformed storage command be executed is violated by the code. -/
theorem update_asset_no_fields_malformed :
    updateClauses none none = [] ∧
    updateQuery none none = "UPDATE Assets SET  WHERE asset_id = %s" ∧
    ∀ (db : DB) (i : Nat), update_asset db i none none
        = ("Error updating asset: syntax error at or near \"WHERE\"", db) :=
  ⟨rfl, rfl, fun _ _ => rfl⟩

/-- C1 (counterexample): starting from the empty store with the default
bootstrap inputs, the first call returns the pair of bare integers
`(1, 1)` while the second call returns the never-unpacked `fetchone` row
tuples `((1,), (1,))` — the two `(user_id, account_id)` pairs are not
identical values. -/
theorem create_user_and_account_not_idempotent :
    (create_user_and_account DB.empty "John Doe" "john.doe@example.com"
        "Brokerage" "Fictional Broker").1
      ≠ (create_user_and_account
          (create_user_and_account DB.empty "John Doe" "john.doe@example.com"
            "Brokerage" "Fictional Broker").2
          "John Doe" "john.doe@example.com" "Brokerage" "Fictional Broker").1 := by
  decide


/-- Lemma: `accountPart` always returns the user value it was given. -/
theorem accountPart_fst (db : DB) (uid : PyVal) (t p : String) :
    (accountPart db uid t p).1.1 = some uid := by
  unfold accountPart
  split <;> rfl

/-- Lemma: `accountPart` leaves the `Users` table untouched. -/
theorem accountPart_users (db : DB) (uid : PyVal) (t p : String) :
    (accountPart db uid t p).2.users = db.users := by
  unfold accountPart
  split <;> rfl

/-- After `accountPart`, the account lookup on the resulting store finds a
row whose key equals the underlying value of the returned account id. -/
theorem accountPart_find (db : DB) (uid : PyVal) (t p : String) :
    ∃ a : AccountRow, ∃ av : PyVal,
      (accountPart db uid t p).1.2 = some av ∧
      a.account_id = av.underlying ∧
      (accountPart db uid t p).2.accounts.find?
        (fun x => x.user_id = uid.underlying ∧ x.provider_name = p) = some a := by
  rcases h : db.accounts.find? (fun x => x.user_id = uid.underlying ∧ x.provider_name = p)
    with _ | a
  · refine ⟨{ account_id := db.nextAccountId, user_id := uid.underlying
              account_type := t, provider_name := p },
      PyVal.vint db.nextAccountId, ?_, rfl, ?_⟩
    · unfold accountPart
      rw [h]
    · unfold accountPart
      rw [h, List.find?_append, h]
      simp [List.find?]
  · refine ⟨a, PyVal.vtup a.account_id, ?_, rfl, ?_⟩
    · unfold accountPart
      rw [h]
    · unfold accountPart
      rw [h]
      exact h

/-- When both the user lookup and the account lookup succeed,
`create_user_and_account` returns the two fetched rows as unread row
tuples and leaves the store unchanged. -/
theorem create_user_and_account_of_finds (db : DB) (n e t p : String)
    (u : UserRow) (a : AccountRow)
    (hu : db.users.find? (fun x => x.email = e) = some u)
    (ha : db.accounts.find? (fun x => x.user_id = u.user_id ∧ x.provider_name = p) = some a) :
    create_user_and_account db n e t p
      = ((some (PyVal.vtup u.user_id), some (PyVal.vtup a.account_id)), db) := by
  unfold create_user_and_account
  rw [hu]
  unfold accountPart
  simp only [PyVal.underlying]
  rw [ha]

/-- After `create_user_and_account`, the user lookup by email on the
resulting store finds a row whose key equals the underlying value of the
returned user id, and the account lookup keyed by that value and the
provider finds a row whose key equals the underlying value of the returned
account id. -/
theorem create_user_and_account_find (db : DB) (n e t p : String) :
    ∃ u : UserRow, ∃ uv : PyVal, ∃ a : AccountRow, ∃ av : PyVal,
      (create_user_and_account db n e t p).1 = (some uv, some av) ∧
      u.user_id = uv.underlying ∧
      a.account_id = av.underlying ∧
      (create_user_and_account db n e t p).2.users.find? (fun x => x.email = e) = some u ∧
      (create_user_and_account db n e t p).2.accounts.find?
        (fun x => x.user_id = u.user_id ∧ x.provider_name = p) = some a := by
  rcases h : db.users.find? (fun x => x.email = e) with _ | u
  · have hun : create_user_and_account db n e t p
        = accountPart { db with users := db.users ++ [{ user_id := db.nextUserId, name := n, email := e }]
                                nextUserId := db.nextUserId + 1 }
            (PyVal.vint db.nextUserId) t p := by
      unfold create_user_and_account
      rw [h]
    obtain ⟨a, av, hav, haid, hfind⟩ :=
      accountPart_find { db with users := db.users ++ [{ user_id := db.nextUserId, name := n, email := e }]
                                 nextUserId := db.nextUserId + 1 }
        (PyVal.vint db.nextUserId) t p
    refine ⟨{ user_id := db.nextUserId, name := n, email := e },
      PyVal.vint db.nextUserId, a, av, ?_, rfl, haid, ?_, ?_⟩
    · rw [hun, Prod.ext_iff]
      exact ⟨accountPart_fst _ _ _ _, hav⟩
    · rw [hun, accountPart_users]
      simp [List.find?_append, h, List.find?]
    · rw [hun]
      exact hfind
  · have hun : create_user_and_account db n e t p
        = accountPart db (PyVal.vtup u.user_id) t p := by
      unfold create_user_and_account
      rw [h]
    obtain ⟨a, av, hav, haid, hfind⟩ := accountPart_find db (PyVal.vtup u.user_id) t p
    refine ⟨u, PyVal.vtup u.user_id, a, av, ?_, rfl, haid, ?_, ?_⟩
    · rw [hun, Prod.ext_iff]
      exact ⟨accountPart_fst _ _ _ _, hav⟩
    · rw [hun, accountPart_users]
      exact h
    · rw [hun]
      exact hfind

/-- C1 (amended): bootstrap inserts no duplicate rows — the store after the
second call equals the store after the first — and the second call returns
identifiers with the same underlying integer values as the first (though
wrapped as unread singleton row tuples, so the returned Python pairs are
not identical values, as the counterexample records). -/
theorem create_user_and_account_idempotent_ids (db : DB) (n e t p : String) :
    (create_user_and_account (create_user_and_account db n e t p).2 n e t p).2
        = (create_user_and_account db n e t p).2 ∧
    Option.map PyVal.underlying
        (create_user_and_account (create_user_and_account db n e t p).2 n e t p).1.1
      = Option.map PyVal.underlying (create_user_and_account db n e t p).1.1 ∧
    Option.map PyVal.underlying
        (create_user_and_account (create_user_and_account db n e t p).2 n e t p).1.2
      = Option.map PyVal.underlying (create_user_and_account db n e t p).1.2 := by
  obtain ⟨u, uv, a, av, hpair, hu, ha, hufind, hafind⟩ := create_user_and_account_find db n e t p
  have h2 := create_user_and_account_of_finds
    (create_user_and_account db n e t p).2 n e t p u a hufind hafind
  rw [h2, hpair]
  exact ⟨rfl, by simp [PyVal.underlying, hu], by simp [PyVal.underlying, ha]⟩

/-- C8: a partial update touches only the supplied field — with only
`new_shares`, every asset row keeps all its fields except that the rows
matching `asset_id` get the new share count (cost basis untouched), and
symmetrically with only `new_cost_basis`. -/
theorem update_asset_partial_frame (db : DB) (asset_id : Nat) (s c : Rat) :
    ((update_asset db asset_id (some s) none).2.assets.length = db.assets.length ∧
     ∀ i : Nat, (update_asset db asset_id (some s) none).2.assets[i]?
       = (db.assets[i]?).map (fun a =>
           if a.asset_id = asset_id then { a with shares := s } else a)) ∧
    ((update_asset db asset_id none (some c)).2.assets.length = db.assets.length ∧
     ∀ i : Nat, (update_asset db asset_id none (some c)).2.assets[i]?
       = (db.assets[i]?).map (fun a =>
           if a.asset_id = asset_id then { a with cost_basis := c } else a)) := by
  refine ⟨⟨?_, fun i => ?_⟩, ⟨?_, fun i => ?_⟩⟩ <;>
    simp only [update_asset, updateClauses, Option.isSome_some, Option.isSome_none,
      if_true, if_false, List.append_nil, List.nil_append, List.isEmpty_cons,
      Bool.false_eq_true, if_neg, Option.getD_some, Option.getD_none] <;>
    simp [List.getElem?_map]

/-- C9: `delete_asset` on an identifier matching no row (and, by
referential integrity, no transaction) succeeds with zero rows affected,
returning the success message and an unchanged store; and on any store the
deletion leaves zero Asset rows and — through the cascade — zero
Transaction rows carrying the deleted identifier. -/
theorem delete_asset_idempotent_cascade (db : DB) (asset_id : Nat) :
    ((∀ a ∈ db.assets, ¬ a.asset_id = asset_id) →
     (∀ t ∈ db.transactions, ¬ t.asset_id = asset_id) →
      delete_asset db asset_id
        = ("Asset " ++ toString asset_id ++ " deleted successfully.", db)) ∧
    (delete_asset db asset_id).2.transactions.countP (fun t => t.asset_id = asset_id) = 0 ∧
    (delete_asset db asset_id).2.assets.countP (fun a => a.asset_id = asset_id) = 0 := by
  refine ⟨fun h1 h2 => ?_, ?_, ?_⟩
  · have e1 : db.assets.filter (fun a => ¬ a.asset_id = asset_id) = db.assets :=
      List.filter_eq_self.mpr (fun a haa => by simpa using h1 a haa)
    have e2 : cascadeDeleteTransactions db.transactions asset_id = db.transactions :=
      List.filter_eq_self.mpr (fun t htt => by simpa using h2 t htt)
    unfold delete_asset
    rw [e1, e2]
  · refine List.countP_eq_zero.mpr (fun t ht => ?_)
    simp only [delete_asset, cascadeDeleteTransactions, List.mem_filter] at ht
    simpa using ht.2
  · refine List.countP_eq_zero.mpr (fun a ha => ?_)
    simp only [delete_asset, List.mem_filter] at ha
    simpa using ha.2

/-- A store with one asset (id 1, account 1) and its BUY transaction, used
to instantiate the delete and insights theorems. -/
def dbOne : DB :=
  { users := [{ user_id := 1, name := "John Doe", email := "john.doe@example.com" }]
    accounts := [{ account_id := 1, user_id := 1, account_type := "Brokerage"
                   provider_name := "Fictional Broker" }]
    assets := [{ asset_id := 1, account_id := 1, ticker_symbol := "AAPL"
                 asset_class := "Equity", purchase_date := "2024-01-01"
                 shares := 10, cost_basis := 150 }]
    transactions := [{ txn_id := 1, asset_id := 1, transaction_type := "BUY"
                       transaction_date := "2024-01-01", shares := 10, amount := 1500 }]
    nextUserId := 2, nextAccountId := 2, nextAssetId := 2, nextTxnId := 2 }

/-- Witness for C9: deleting the absent id 2 from `dbOne` returns the
success message and the unchanged store, and no row with id 2 remains. -/
theorem delete_asset_idempotent_cascade_witness :
    delete_asset dbOne 2 = ("Asset " ++ toString 2 ++ " deleted successfully.", dbOne) ∧
    (delete_asset dbOne 2).2.transactions.countP (fun t => t.asset_id = 2) = 0 ∧
    (delete_asset dbOne 2).2.assets.countP (fun a => a.asset_id = 2) = 0 :=
  ⟨(delete_asset_idempotent_cascade dbOne 2).1 (by decide) (by decide),
   (delete_asset_idempotent_cascade dbOne 2).2.1,
   (delete_asset_idempotent_cascade dbOne 2).2.2⟩

/-- C7: for an account with no assets, `get_insights` returns zero total
value, zero total gain/loss and an empty allocation, and the frontend's
guarded percentage delta evaluates to 0 without dividing. -/
theorem get_insights_empty_portfolio (db : DB) (account_id : Nat) (rand : Nat → Rat)
    (h : db.assets.filter (fun a => a.account_id = account_id) = []) :
    get_insights db account_id rand
        = { total_value := 0, total_gain_loss := 0, asset_allocation := [] } ∧
    deltaPercent (get_insights db account_id rand).total_gain_loss
        (get_insights db account_id rand).total_value = 0 := by
  have h1 : get_insights db account_id rand = ⟨0, 0, []⟩ := by
    unfold get_insights
    rw [h]
    simp
  rw [h1]
  exact ⟨rfl, by simp [deltaPercent]⟩

/-- Witness for C7: the empty store has no assets for account 1, zero
insights and a guarded zero delta. -/
theorem get_insights_empty_portfolio_witness :
    DB.empty.assets.filter (fun a => a.account_id = 1) = [] ∧
    get_insights DB.empty 1 (fun _ => 1/2)
        = { total_value := 0, total_gain_loss := 0, asset_allocation := [] } ∧
    deltaPercent (get_insights DB.empty 1 (fun _ => 1/2)).total_gain_loss
        (get_insights DB.empty 1 (fun _ => 1/2)).total_value = 0 :=
  ⟨rfl, (get_insights_empty_portfolio DB.empty 1 (fun _ => 1/2) rfl).1,
    (get_insights_empty_portfolio DB.empty 1 (fun _ => 1/2) rfl).2⟩

/-- The total of an allocation mapping: the sum of its per-class values. -/
def sumAlloc (l : List (String × Rat)) : Rat :=
  (l.map Prod.snd).sum

/-- Adding `v` under a class key raises the allocation total by `v`. -/
theorem sumAlloc_allocAdd (l : List (String × Rat)) (cls : String) (v : Rat) :
    sumAlloc (allocAdd l cls v) = sumAlloc l + v := by
  induction l with
  | nil => simp [allocAdd, sumAlloc]
  | cons hd tl ih =>
      rcases hd with ⟨c, w⟩
      by_cases hc : c = cls
      · simp only [allocAdd, if_pos hc, sumAlloc, List.map_cons, List.sum_cons]
        ring
      · simp only [allocAdd, if_neg hc, sumAlloc, List.map_cons, List.sum_cons] at *
        rw [ih]
        ring

/-- The accumulator invariants of the `get_insights` loop: the running
total value, the running gain/loss and the allocation total each grow by
the corresponding per-row quantity. -/
theorem insights_foldl (rand : Nat → Rat) (l : List (Nat × AssetRow))
    (acc : Rat × Rat × List (String × Rat)) :
    (l.foldl (insightsStep rand) acc).1
        = acc.1 + (l.map (fun p => p.2.shares * simPrice p.2.cost_basis (rand p.1))).sum ∧
    (l.foldl (insightsStep rand) acc).1 - (l.foldl (insightsStep rand) acc).2.1
        = (acc.1 - acc.2.1)
          + (l.map (fun p => p.2.shares * simPrice p.2.cost_basis (rand p.1)
              - p.2.shares * p.2.cost_basis)).sum ∧
    sumAlloc (l.foldl (insightsStep rand) acc).2.2
        = sumAlloc acc.2.2
          + (l.map (fun p => p.2.shares * simPrice p.2.cost_basis (rand p.1))).sum := by
  induction l generalizing acc with
  | nil => simp
  | cons hd tl ih =>
      obtain ⟨i1, i2, i3⟩ := ih (insightsStep rand acc hd)
      simp only [List.foldl_cons, List.map_cons, List.sum_cons]
      refine ⟨?_, ?_, ?_⟩
      · rw [i1]
        simp only [insightsStep]
        ring
      · rw [i2]
        simp only [insightsStep]
        ring
      · rw [i3]
        simp only [insightsStep]
        rw [sumAlloc_allocAdd]
        ring

/-- C6: the total value reported by `get_insights` equals the sum of the
per-class values of the allocation mapping it reports, for every account
with at least one asset. -/
theorem get_insights_total_eq_alloc_sum (db : DB) (account_id : Nat) (rand : Nat → Rat)
    (h : db.assets.filter (fun a => a.account_id = account_id) ≠ []) :
    (get_insights db account_id rand).total_value
      = sumAlloc (get_insights db account_id rand).asset_allocation := by
  clear h
  obtain ⟨i1, _, i3⟩ := insights_foldl rand
    ((db.assets.filter (fun a => a.account_id = account_id)).enum) (0, 0, [])
  simp only [get_insights]
  rw [i1, i3]
  simp [sumAlloc]

/-- Witness for C6: on the one-asset store the insights total and the
allocation total agree. -/
theorem get_insights_total_eq_alloc_sum_witness :
    dbOne.assets.filter (fun a => a.account_id = 1) ≠ [] ∧
    (get_insights dbOne 1 (fun _ => 1/2)).total_value
      = sumAlloc (get_insights dbOne 1 (fun _ => 1/2)).asset_allocation :=
  ⟨by decide, get_insights_total_eq_alloc_sum dbOne 1 (fun _ => 1/2) (by decide)⟩

/-- For a draw in `[0, 1)` and a non-negative cost basis, the simulated
price stays within ±10% of the cost basis. -/
theorem simPrice_within (cb r : Rat) (h0 : 0 ≤ r) (h1 : r < 1) (hcb : 0 ≤ cb) :
    |simPrice cb r - cb| ≤ cb / 10 := by
  unfold simPrice
  rw [abs_le]
  constructor <;> nlinarith

/-- C5: every record produced by `read_portfolio` carries a current price
of the form `cost_basis * (1 + (r - 0.5) * 0.2)` for a draw `r` in
`[0, 1)` — hence within ±10% of the cost basis — a current value of
`shares * current_price` and a gain/loss of `current_value - shares *
cost_basis`; and `get_insights` accumulates with the same simulated-price
formula: fed the same draws, its total value and total gain/loss are the
sums of the per-record current values and gains of `read_portfolio`. -/
theorem read_portfolio_simulated_price (db : DB) (account_id : Nat) (rand : Nat → Rat)
    (hr : ∀ i, 0 ≤ rand i ∧ rand i < 1)
    (hc : ∀ a ∈ db.assets, 0 ≤ a.cost_basis) :
    (∀ v ∈ read_portfolio db account_id rand,
      (∃ r, 0 ≤ r ∧ r < 1 ∧ v.current_price = v.cost_basis * (1 + (r - 1/2) * (2/10))) ∧
      |v.current_price - v.cost_basis| ≤ v.cost_basis / 10 ∧
      v.current_value = v.shares * v.current_price ∧
      v.gain_loss = v.current_value - v.shares * v.cost_basis) ∧
    (get_insights db account_id rand).total_value
        = ((read_portfolio db account_id rand).map AssetView.current_value).sum ∧
    (get_insights db account_id rand).total_gain_loss
        = ((read_portfolio db account_id rand).map AssetView.gain_loss).sum := by
  obtain ⟨i1, i2, _⟩ := insights_foldl rand
    ((db.assets.filter (fun a => a.account_id = account_id)).enum) (0, 0, [])
  refine ⟨?_, ?_, ?_⟩
  · intro v hv
    simp only [read_portfolio] at hv
    obtain ⟨p, hp, rfl⟩ := List.mem_map.mp hv
    have hmem : p.2 ∈ db.assets :=
      List.mem_of_mem_filter (List.snd_mem_of_mem_enum hp)
    refine ⟨⟨rand p.1, (hr p.1).1, (hr p.1).2, rfl⟩, ?_, rfl, rfl⟩
    exact simPrice_within p.2.cost_basis (rand p.1) (hr p.1).1 (hr p.1).2 (hc p.2 hmem)
  · simp only [get_insights, read_portfolio, List.map_map]
    rw [i1]
    simp only [zero_add]
    rfl
  · simp only [get_insights, read_portfolio, List.map_map]
    rw [i2]
    simp only [zero_sub, sub_zero, zero_add, sub_self]
    rfl

/-- The constant draw stream 0.5, for which the simulated price equals the
cost basis. -/
def rHalf : Nat → Rat := fun _ => 1/2

/-- Witness for C5: the hypotheses hold for the constant draw 0.5 and the
one-asset store, and so do the price, value, gain and totals properties. -/
theorem read_portfolio_simulated_price_witness :
    (∀ i, 0 ≤ rHalf i ∧ rHalf i < 1) ∧
    (∀ a ∈ dbOne.assets, 0 ≤ a.cost_basis) ∧
    ((∀ v ∈ read_portfolio dbOne 1 rHalf,
      (∃ r, 0 ≤ r ∧ r < 1 ∧ v.current_price = v.cost_basis * (1 + (r - 1/2) * (2/10))) ∧
      |v.current_price - v.cost_basis| ≤ v.cost_basis / 10 ∧
      v.current_value = v.shares * v.current_price ∧
      v.gain_loss = v.current_value - v.shares * v.cost_basis) ∧
    (get_insights dbOne 1 rHalf).total_value
        = ((read_portfolio dbOne 1 rHalf).map AssetView.current_value).sum ∧
    (get_insights dbOne 1 rHalf).total_gain_loss
        = ((read_portfolio dbOne 1 rHalf).map AssetView.gain_loss).sum) :=
  ⟨fun i => ⟨by norm_num [rHalf], by norm_num [rHalf]⟩,
   fun a ha => by
     simp only [dbOne, List.mem_singleton] at ha
     rw [ha]
     norm_num,
   read_portfolio_simulated_price dbOne 1 rHalf
     (fun i => ⟨by norm_num [rHalf], by norm_num [rHalf]⟩)
     (fun a ha => by
       simp only [dbOne, List.mem_singleton] at ha
       rw [ha]
       norm_num)⟩
